import Mathlib

/-!
Verification development for the finance-portfolio-agent repository.

The definitions below are a shallow embedding of the program:

* the Postgres functions of `supabase/migrations/20240403_token_encryption.sql`
  (`encrypt_token`, `decrypt_token`, `create_user_connection`,
  `update_user_connection_token`) and of the schema migration that declares
  `user_connections`, `notifications` and `get_active_connections`;
* the client-side notification hook `src/hooks/useNotifications.ts`
  (`loadNotifications`, the INSERT subscription, `markAsRead`, `markAllAsRead`);
* the Deno edge-function request handler of `supabase/functions/mcp-agent`;
* the portfolio delta monitor, whose handler file is not in the repository:
  it is modelled from the specification text (threshold + hysteresis rule).

Timestamps are modelled as natural numbers (seconds); `NOW()` is a `now`
field of the database state.  `pgp_sym_encrypt` output is modelled as the
pair (plaintext, key): the random salt of the real primitive is irrelevant
to every property proved here, which only uses that decryption with the
same key recovers the plaintext and with a different key fails.
-/

namespace FinancePortfolioAgent

/-- Model of a `pgp_sym_encrypt` ciphertext: the encrypted plaintext together
with the symmetric key it was produced under.  `pgp_sym_decrypt` with the
same key recovers `secret`; with any other key it raises an error. -/
structure Cipher where
  secret : String
  key : String
deriving DecidableEq, Repr

/-- The `metadata` JSONB column of `user_connections`, with the keys the
migration writes (`created_by`, `created_at`, `updated_at`) and the keys the
UI reads (`last_check_status`, `error_message`).  Absent keys are `none`. -/
structure Metadata where
  created_by : String
  created_at : Option Nat
  updated_at : Option Nat
  last_check_status : Option String
  error_message : Option String
deriving DecidableEq, Repr

/-- A row of the `user_connections` table (schema migration):
`id UUID PRIMARY KEY`, `user_id UUID NOT NULL REFERENCES auth.users`,
`broker_type TEXT NOT NULL`, `encrypted_token TEXT NOT NULL`,
`is_active BOOLEAN DEFAULT true`, `created_at TIMESTAMPTZ DEFAULT NOW()`,
`last_check_at TIMESTAMPTZ`, `metadata JSONB`.  Ids are modelled as `Nat`. -/
structure Connection where
  id : Nat
  user_id : Nat
  broker_type : String
  encrypted_token : Cipher
  is_active : Bool
  created_at : Nat
  last_check_at : Option Nat
  metadata : Metadata
deriving DecidableEq, Repr

/-- The database state the SQL functions run against: the `auth.users` ids,
the `user_connections` rows, the `app.encryption_key` setting, the clock
`NOW()` and a fresh-id counter standing in for `uuid_generate_v4()`. -/
structure DbState where
  users : List Nat
  connections : List Connection
  encryption_key : String
  now : Nat
  nextId : Nat
deriving DecidableEq, Repr

/-- Errors raised by the SQL functions:
`RAISE EXCEPTION 'Access denied'` in `decrypt_token`,
`RAISE EXCEPTION 'User not found'` / `'Connection not found'`,
the `UNIQUE(user_id, broker_type)` violation of the `INSERT`,
and a `pgp_sym_decrypt` failure on a wrong-key ciphertext. -/
inductive DbError where
  | accessDenied
  | notFound
  | conflict
  | decryptFailed
deriving DecidableEq, Repr

/-- `encrypt_token(p_token, p_user_id)`: reads the key from
`current_setting('app.encryption_key')` and returns
`pgp_sym_encrypt(p_token, v_key)`.  The `p_user_id` argument is accepted but
unused by the source function (the key is process-wide, not per-user). -/
def encrypt_token (p_token : String) (_p_user_id : Nat) (st : DbState) : Cipher :=
  { secret := p_token, key := st.encryption_key }

/-- `pgp_sym_decrypt(ciphertext, key)`: recovers the plaintext when the key
matches the one the ciphertext was produced under, fails otherwise. -/
def pgp_sym_decrypt (c : Cipher) (k : String) : Option String :=
  if c.key = k then some c.secret else none

/-- `decrypt_token(p_encrypted_token, p_user_id)`: first checks
`EXISTS (SELECT 1 FROM user_connections WHERE user_id = p_user_id AND
encrypted_token = p_encrypted_token)` and raises `'Access denied'` when no
such row exists; only then reads the key and runs `pgp_sym_decrypt`. -/
def decrypt_token (c : Cipher) (p_user_id : Nat) (st : DbState) :
    Except DbError String :=
  if st.connections.any (fun r => r.user_id == p_user_id && r.encrypted_token == c) then
    match pgp_sym_decrypt c st.encryption_key with
    | some t => .ok t
    | none => .error .decryptFailed
  else
    .error .accessDenied

/-- `create_user_connection(p_user_id, p_broker_type, p_token)`:
raises `'User not found'` when `p_user_id` is not in `auth.users`; then
`INSERT`s a row with `encrypt_token(p_token, p_user_id)`, `is_active = true`
and `metadata = jsonb_build_object('created_by', current_user, 'created_at',
now())`; the `UNIQUE(user_id, broker_type)` constraint of the table makes the
insert fail when a row with the same pair already exists.  Returns the new
row's id. -/
def create_user_connection (p_user_id : Nat) (p_broker_type : String)
    (p_token : String) (st : DbState) : Except DbError (Nat × DbState) :=
  if ¬ st.users.contains p_user_id then
    .error .notFound
  else if st.connections.any
      (fun r => r.user_id == p_user_id && r.broker_type == p_broker_type) then
    .error .conflict
  else
    let row : Connection :=
      { id := st.nextId
        user_id := p_user_id
        broker_type := p_broker_type
        encrypted_token := encrypt_token p_token p_user_id st
        is_active := true
        created_at := st.now
        last_check_at := none
        metadata :=
          { created_by := "authenticated"
            created_at := some st.now
            updated_at := none
            last_check_status := none
            error_message := none } }
    .ok (st.nextId, { st with
      connections := row :: st.connections
      nextId := st.nextId + 1 })

/-- `update_user_connection_token(p_connection_id, p_new_token)`:
`SELECT user_id ... WHERE id = p_connection_id`, raising
`'Connection not found'` when no row matches; then
`UPDATE user_connections SET encrypted_token = encrypt_token(p_new_token,
v_user_id), metadata = jsonb_set(metadata, '\x7bupdated_at\x7d', to_jsonb(now()))
WHERE id = p_connection_id`.  No other column is touched. -/
def update_user_connection_token (p_connection_id : Nat) (p_new_token : String)
    (st : DbState) : Except DbError DbState :=
  match st.connections.find? (fun r => r.id == p_connection_id) with
  | none => .error .notFound
  | some row =>
      .ok { st with
        connections := st.connections.map (fun r =>
          if r.id == p_connection_id then
            { r with
              encrypted_token := encrypt_token p_new_token row.user_id st
              metadata := { r.metadata with updated_at := some st.now } }
          else r) }

/-- Whether a `user_connections` row is selected by `get_active_connections`:
`is_active = true AND (last_check_at IS NULL OR last_check_at <
NOW() - INTERVAL '5 minutes')` (300 seconds). -/
def connection_due (now : Nat) (r : Connection) : Bool :=
  r.is_active &&
    (match r.last_check_at with
     | none => true
     | some t => t + 300 < now)

/-- `get_active_connections()` as a database call: it is `LANGUAGE sql` and
consists of a single `SELECT` with no DML, so its effect is the selected rows
paired with the database state it leaves behind — the input state unchanged. -/
def get_active_connections_call (st : DbState) : List Connection × DbState :=
  (st.connections.filter (connection_due st.now), st)

/-- The rows returned by `get_active_connections()`. -/
def get_active_connections (st : DbState) : List Connection :=
  (get_active_connections_call st).1

/-- A row of the `notifications` table as the client hook sees it:
`id`, `status` (text, default `'unread'`), plus the fields the hook carries
along (`type`, `created_at`). -/
structure Notif where
  id : String
  status : String
  type : String
  created_at : Nat
deriving DecidableEq, Repr

/-- The React state held by `useNotifications`: the `notifications` array and
the `unreadCount` counter.  The counter is a JavaScript number updated with
`+ 1` / `- 1`, so it is modelled as an integer (it can go negative). -/
structure NotifState where
  notifications : List Notif
  unreadCount : Int
deriving DecidableEq, Repr

/-- Number of rows with `status === 'unread'` in a list (the expression
`data.filter(n => n.status === 'unread').length` of the hook). -/
def countUnread (l : List Notif) : Nat :=
  (l.filter (fun n => n.status == "unread")).length

/-- `loadNotifications`: fetches the owner's rows ordered by `created_at`
descending with `.limit(50)`, then sets `notifications` to the result and
`unreadCount` to the number of unread rows among them.  `rows` is the
already-ordered query result for the owner. -/
def loadNotifications (rows : List Notif) : NotifState :=
  let data := rows.take 50
  { notifications := data, unreadCount := (countUnread data : Int) }

/-- The INSERT subscription callback: prepends `payload.new` to
`notifications` and increments `unreadCount` by one. -/
def onInsert (n : Notif) (st : NotifState) : NotifState :=
  { notifications := n :: st.notifications
    unreadCount := st.unreadCount + 1 }

/-- `markAsRead(notificationId)`: updates the row (`status = 'read'` where
`id` matches — an update matching zero rows is not an error), maps the local
array setting the matching entry's status to `'read'`, and decrements
`unreadCount` by one unconditionally.  The function is total: no error path
is reachable in this model, matching a successful database round-trip. -/
def markAsRead (notificationId : String) (st : NotifState) : NotifState :=
  { notifications := st.notifications.map (fun n =>
      if n.id == notificationId then { n with status := "read" } else n)
    unreadCount := st.unreadCount - 1 }

/-- `markAllAsRead`: updates all unread rows of the owner, maps every local
entry to `status = 'read'` and sets `unreadCount` to zero. -/
def markAllAsRead (st : NotifState) : NotifState :=
  { notifications := st.notifications.map (fun n => { n with status := "read" })
    unreadCount := 0 }

/-- An event applied to the client state after the initial load: a delivered
INSERT, a user `markAsRead`, or a user `markAllAsRead`. -/
inductive NotifEvent where
  | insert (n : Notif)
  | markRead (id : String)
  | markAll
deriving DecidableEq, Repr

/-- One client-state transition per event, exactly the three handlers of the
hook. -/
def notifStep (st : NotifState) : NotifEvent → NotifState
  | .insert n => onInsert n st
  | .markRead i => markAsRead i st
  | .markAll => markAllAsRead st

/-- Folding a list of events over the client state. -/
def notifRun (st : NotifState) : List NotifEvent → NotifState
  | [] => st
  | e :: es => notifRun (notifStep st e) es

/-- Well-formed use of the hook: delivered inserts carry status `'unread'`
(the table default the store appends with), and `markAsRead` targets an id
with exactly one currently-unread matching entry and no already-read one. -/
def okEvent (st : NotifState) : NotifEvent → Prop
  | .insert n => n.status = "unread"
  | .markRead i =>
      (st.notifications.filter (fun n => n.id == i && n.status == "unread")).length = 1 ∧
      (st.notifications.filter (fun n => n.id == i && n.status != "unread")).length = 0
  | .markAll => True

/-- Every event of the run is well formed at the state it is applied to. -/
def okRun (st : NotifState) : List NotifEvent → Prop
  | [] => True
  | e :: es => okEvent st e ∧ okRun (notifStep st e) es

/-- The cached-counter invariant of the specification:
`unread_count == count(status = unread)` over the loaded list. -/
def notifInvariant (st : NotifState) : Prop :=
  st.unreadCount = (countUnread st.notifications : Int)

/-! ### The mcp-agent edge function (`supabase/functions/mcp-agent`) -/

/-- A position of the mock portfolio returned by the `portfolio` request. -/
structure MockPosition where
  ticker : String
  quantity : Nat
  averagePrice : Nat
  currentPrice : Nat
  pnl : Nat
  pnlPercent : Nat
deriving DecidableEq, Repr

/-- The three mock payloads of the handler, one per request type. -/
inductive ResponseData where
  | portfolioData (totalValue : Nat) (positions : List MockPosition)
  | analysisData (riskLevel : String) (diversification : String)
      (recommendations : Nat)
  | chatData (message : String)
deriving DecidableEq, Repr

/-- The JSON envelope of a handler response body: `success`, optional
`error` string, optional `data` payload. -/
structure Envelope where
  success : Bool
  error : Option String
  data : Option ResponseData
deriving DecidableEq, Repr

/-- An HTTP response produced by the handler: the status code and the body.
`body = none` models `new Response(undefined, ...)` — the case where
`JSON.stringify` returned `undefined` and the response body is empty. -/
structure HttpResponse where
  status : Nat
  body : Option Envelope
deriving DecidableEq, Repr

/-- `mockPortfolio` of `index.ts`: total value 1000000 and two positions. -/
def mockPortfolio : ResponseData :=
  .portfolioData 1000000
    [ { ticker := "SBER", quantity := 100, averagePrice := 250,
        currentPrice := 300, pnl := 5000, pnlPercent := 20 },
      { ticker := "GAZP", quantity := 200, averagePrice := 150,
        currentPrice := 180, pnl := 6000, pnlPercent := 20 } ]

/-- `mockResponses`: the object's own keys — the request type strings
`portfolio`, `analysis`, `chat` — and their mock payloads; every other
string is not an own key. -/
def mockResponses (t : String) : Option ResponseData :=
  if t = "portfolio" then some mockPortfolio
  else if t = "analysis" then some (.analysisData "medium" "good" 2)
  else if t = "chat" then
    some (.chatData "chat reply")
  else none

/-- The enumerable-by-`in` property names a plain object literal inherits
from `Object.prototype`: for these strings `t in mockResponses` is true in
JavaScript although they are not own keys, and `mockResponses[t]` evaluates
to the inherited function (or, for `__proto__`, the prototype object). -/
def objectPrototypeKeys : List String :=
  ["constructor", "hasOwnProperty", "isPrototypeOf", "propertyIsEnumerable",
    "toLocaleString", "toString", "valueOf", "__defineGetter__",
    "__defineSetter__", "__lookupGetter__", "__lookupSetter__", "__proto__"]

/-- `config.maxRequestSize` of `config.ts`: 1024 * 1024 bytes. -/
def maxRequestSize : Nat := 1024 * 1024

/-- The request handler of `index.ts` after JSON parsing: `contentLength` is
the `content-length` header, `typeField` the `type` field of the parsed body
(`none` when absent).  Oversized bodies throw `'Request body too large'`;
a missing type, or one for which the JavaScript test `type in mockResponses`
is false, throws `'Invalid request type'`; every thrown error is caught and
returned as a `success: false` envelope with status 400.  The `in` operator
also accepts the property names inherited from `Object.prototype`: for such
a tag the guard passes, `mockResponses[type]` is the inherited function,
`JSON.stringify` of it is `undefined`, and the response is status 200 with
an empty body.  An own key returns its mock envelope with the default
status 200. -/
def handler (contentLength : Nat) (typeField : Option String) : HttpResponse :=
  if maxRequestSize < contentLength then
    { status := 400
      body := some
        { success := false, error := some "Request body too large",
          data := none } }
  else
    match typeField with
    | none =>
        { status := 400
          body := some
            { success := false, error := some "Invalid request type",
              data := none } }
    | some t =>
        if (mockResponses t).isSome || objectPrototypeKeys.contains t then
          match mockResponses t with
          | some d =>
              { status := 200
                body := some
                  { success := true, error := none, data := some d } }
          | none =>
              { status := 200, body := none }
        else
          { status := 400
            body := some
              { success := false, error := some "Invalid request type",
                data := none } }

/-! ### Portfolio delta monitor -/

/-- Modelled from the spec: the handler file
`src/agent/tasks/portfolio_monitor.py` named by the background-task
configuration is not in the repository, so the monitor is modelled from the
specification text.  The hysteresis state is the last-alerted snapshot's
total value (the alert's reference value), absent before any alert. -/
structure MonitorState where
  lastAlertRef : Option ℚ
deriving DecidableEq, Repr

/-- Modelled from the spec: `pct_change = (current.total_value -
previous.total_value) / previous.total_value`. -/
def pct_change (previous current : ℚ) : ℚ :=
  (current - previous) / previous

/-- Modelled from the spec: alert iff `abs(pct_change) >= threshold` and the
current value has moved past the threshold relative to the last-alerted
reference value (no restriction when no alert was emitted yet). -/
def shouldAlert (threshold : ℚ) (st : MonitorState)
    (previous current : ℚ) : Bool :=
  decide (threshold ≤ |pct_change previous current|) &&
    (match st.lastAlertRef with
     | none => true
     | some r => decide (threshold ≤ |pct_change r current|))

/-- Modelled from the spec: processing one pair of successive snapshots —
when the alert fires, a `portfolio_change` notification is appended and the
reference value becomes the current snapshot's total value. -/
def monitorStep (threshold : ℚ) (st : MonitorState)
    (previous current : ℚ) : Bool × MonitorState :=
  if shouldAlert threshold st previous current then
    (true, { lastAlertRef := some current })
  else
    (false, st)

/-- Modelled from the spec: running the monitor over a series of snapshot
total values, one comparison per successive pair; `true` marks a pair for
which a `portfolio_change` notification is appended. -/
def monitorRun (threshold : ℚ) (st : MonitorState) : List ℚ → List Bool
  | [] => []
  | [_] => []
  | p :: c :: rest =>
      let r := monitorStep threshold st p c
      r.1 :: monitorRun threshold r.2 (c :: rest)

/-- The configured `change_threshold: 5.0` percent of the background-task
configuration. -/
def changeThreshold : ℚ := 5 / 100

/-! ### Concrete fixtures used by witnesses and counterexamples -/

/-- Metadata of a freshly created connection at time 0. -/
def sampleMeta : Metadata :=
  { created_by := "authenticated", created_at := some 0, updated_at := none,
    last_check_status := none, error_message := none }

/-- A database with one user (id 1) owning one stored connection whose
`encrypted_token` is the encryption of `"tok-1"` under the process key. -/
def c1State : DbState :=
  { users := [1]
    connections :=
      [ { id := 1, user_id := 1, broker_type := "tinkoff",
          encrypted_token := { secret := "tok-1", key := "k0" },
          is_active := true, created_at := 0, last_check_at := none,
          metadata := sampleMeta } ]
    encryption_key := "k0", now := 0, nextId := 2 }

/-- A database with one user and no stored connections. -/
def emptyVaultState : DbState :=
  { users := [1], connections := [], encryption_key := "k0",
    now := 0, nextId := 1 }

/-! ### C1, C2, C10 — the credential vault -/

/-- C1: Vault round-trip — decrypting `encrypt_token s` on behalf of owner
`u` against a record owned by `u` (a `user_connections` row of `u` storing
that ciphertext) returns `s`.  The key of both operations is the single
process-wide `app.encryption_key` of the state. -/
theorem vault_roundtrip (st : DbState) (s : String) (u : Nat)
    (h : st.connections.any
      (fun r => r.user_id == u && r.encrypted_token == encrypt_token s u st) = true) :
    decrypt_token (encrypt_token s u st) u st = .ok s := by
  simp only [decrypt_token, h, if_true]
  simp [pgp_sym_decrypt, encrypt_token]

/-- C1 witness: the round-trip at the concrete one-row database. -/
theorem vault_roundtrip_witness :
    decrypt_token (encrypt_token "tok-1" 1 c1State) 1 c1State = .ok "tok-1" :=
  vault_roundtrip c1State "tok-1" 1 (by decide)

/-- C2: when the requestor `r` differs from the owner `o` of every record
holding ciphertext `c`, `decrypt_token` fails with `Access denied` and never
returns the plaintext. -/
theorem decrypt_denies_other_owner (st : DbState) (c : Cipher) (r o : Nat)
    (hneq : r ≠ o)
    (hrec : ∀ row ∈ st.connections, row.encrypted_token = c → row.user_id = o) :
    decrypt_token c r st = .error .accessDenied := by
  have hany : st.connections.any
      (fun row => row.user_id == r && row.encrypted_token == c) = false := by
    rw [List.any_eq_false]
    intro row hrow
    simp only [Bool.and_eq_true, beq_iff_eq, not_and]
    intro hu hc
    have ho := hrec row hrow hc
    rw [hu] at ho
    exact absurd ho hneq
  simp only [decrypt_token, hany, Bool.false_eq_true, if_false]

/-- C2 witness: requestor 2 is denied the ciphertext stored in user 1's
record. -/
theorem decrypt_denies_other_owner_witness :
    decrypt_token { secret := "tok-1", key := "k0" } 2 c1State =
      .error .accessDenied :=
  decrypt_denies_other_owner c1State { secret := "tok-1", key := "k0" } 2 1
    (by decide) (by decide)

/-- C10: `decrypt_token` succeeds only for a ciphertext currently stored in
a connection row of the requesting owner — when no row of `u` stores `c`,
it fails with `Access denied`; in particular a ciphertext freshly produced
by `encrypt_token` but never persisted cannot be decrypted. -/
theorem decrypt_requires_stored_ciphertext (st : DbState) (c : Cipher) (u : Nat)
    (h : ∀ row ∈ st.connections, row.user_id = u → row.encrypted_token ≠ c) :
    decrypt_token c u st = .error .accessDenied := by
  have hany : st.connections.any
      (fun row => row.user_id == u && row.encrypted_token == c) = false := by
    rw [List.any_eq_false]
    intro row hrow
    simp only [Bool.and_eq_true, beq_iff_eq, not_and]
    exact h row hrow
  simp only [decrypt_token, hany, Bool.false_eq_true, if_false]

/-- C10 witness: a fresh, unpersisted ciphertext is undecryptable even by
the user it was encrypted for, with the correct key in the state. -/
theorem decrypt_requires_stored_ciphertext_witness :
    decrypt_token (encrypt_token "fresh" 1 emptyVaultState) 1 emptyVaultState =
      .error .accessDenied :=
  decrypt_requires_stored_ciphertext emptyVaultState
    (encrypt_token "fresh" 1 emptyVaultState) 1 (by decide)

/-! ### C4 — connection creation -/

/-- C4: `create_user_connection` fails with `User not found` when the owner
is not in `auth.users`; fails with the unique-constraint conflict when a
connection with the same `(user_id, broker_type)` pair exists; and for a
fresh pair the first create succeeds and an immediately following create for
the same pair fails with the conflict. -/
theorem create_user_connection_spec (st : DbState) (u : Nat) (bt t1 t2 : String) :
    (st.users.contains u = false →
      create_user_connection u bt t1 st = .error .notFound) ∧
    (st.users.contains u = true →
      st.connections.any (fun r => r.user_id == u && r.broker_type == bt) = true →
      create_user_connection u bt t1 st = .error .conflict) ∧
    (st.users.contains u = true →
      st.connections.any (fun r => r.user_id == u && r.broker_type == bt) = false →
      ∃ st', create_user_connection u bt t1 st = .ok (st.nextId, st') ∧
        create_user_connection u bt t2 st' = .error .conflict) := by
  refine ⟨fun h => ?_, fun h1 h2 => ?_, fun h1 h2 => ?_⟩
  · have hmem : u ∉ st.users := by simpa using h
    simp [create_user_connection, hmem]
  · have hmem : u ∈ st.users := by simpa using h1
    have hex : ∃ x ∈ st.connections, x.user_id = u ∧ x.broker_type = bt := by
      simpa using h2
    simp [create_user_connection, hmem, hex]
  · have hmem : u ∈ st.users := by simpa using h1
    have hex : ¬ ∃ x ∈ st.connections, x.user_id = u ∧ x.broker_type = bt := by
      simpa using h2
    refine ⟨{ st with
      connections :=
        { id := st.nextId, user_id := u, broker_type := bt,
          encrypted_token := encrypt_token t1 u st, is_active := true,
          created_at := st.now, last_check_at := none,
          metadata :=
            { created_by := "authenticated", created_at := some st.now,
              updated_at := none, last_check_status := none,
              error_message := none } }
          :: st.connections
      nextId := st.nextId + 1 }, ?_, ?_⟩
    · simp [create_user_connection, hmem, hex]
    · simp [create_user_connection, hmem, hex]

/-- C4 witness: unknown owner 2 gets `User not found`; a duplicate
`(1, tinkoff)` pair gets the conflict; on the empty database the first
create for `(1, tinkoff)` succeeds and the second fails. -/
theorem create_user_connection_spec_witness :
    create_user_connection 2 "tinkoff" "t1" emptyVaultState = .error .notFound ∧
    create_user_connection 1 "tinkoff" "t1" c1State = .error .conflict ∧
    ∃ st', create_user_connection 1 "tinkoff" "t1" emptyVaultState =
        .ok (1, st') ∧
      create_user_connection 1 "tinkoff" "t2" st' = .error .conflict := by
  refine ⟨(create_user_connection_spec emptyVaultState 2 "tinkoff" "t1" "t2").1
      (by decide),
    (create_user_connection_spec c1State 1 "tinkoff" "t1" "t2").2.1
      (by decide) (by decide),
    (create_user_connection_spec emptyVaultState 1 "tinkoff" "t1" "t2").2.2
      (by decide) (by decide)⟩

/-! ### C9 — token update -/

/-- C9: for an existing connection id, `update_user_connection_token`
succeeds and, row by row: the rows whose id matches get a fresh encryption
of the new token and `metadata.updated_at = now()` while their `id`,
`created_at`, `user_id` and `broker_type` are unchanged; every other row is
untouched. -/
theorem update_user_connection_token_spec (st : DbState) (cid : Nat)
    (tok : String) (row : Connection)
    (hfind : st.connections.find? (fun r => r.id == cid) = some row) :
    ∃ st', update_user_connection_token cid tok st = .ok st' ∧
      st'.connections.length = st.connections.length ∧
      ∀ i (h : i < st.connections.length) (h' : i < st'.connections.length),
        ((st.connections.get ⟨i, h⟩).id = cid →
          (st'.connections.get ⟨i, h'⟩).id = (st.connections.get ⟨i, h⟩).id ∧
          (st'.connections.get ⟨i, h'⟩).created_at =
            (st.connections.get ⟨i, h⟩).created_at ∧
          (st'.connections.get ⟨i, h'⟩).encrypted_token =
            encrypt_token tok row.user_id st ∧
          (st'.connections.get ⟨i, h'⟩).metadata.updated_at = some st.now ∧
          (st'.connections.get ⟨i, h'⟩).metadata.created_at =
            (st.connections.get ⟨i, h⟩).metadata.created_at ∧
          (st'.connections.get ⟨i, h'⟩).user_id =
            (st.connections.get ⟨i, h⟩).user_id ∧
          (st'.connections.get ⟨i, h'⟩).broker_type =
            (st.connections.get ⟨i, h⟩).broker_type) ∧
        ((st.connections.get ⟨i, h⟩).id ≠ cid →
          st'.connections.get ⟨i, h'⟩ = st.connections.get ⟨i, h⟩) := by
  have hupd : update_user_connection_token cid tok st =
      .ok { st with connections := st.connections.map (fun r =>
        if r.id == cid then
          { r with
            encrypted_token := encrypt_token tok row.user_id st
            metadata := { r.metadata with updated_at := some st.now } }
        else r) } := by
    simp only [update_user_connection_token, hfind]
  refine ⟨_, hupd, by simp, ?_⟩
  intro i h h'
  simp only [List.get_eq_getElem, List.getElem_map]
  constructor
  · intro hid
    simp [hid]
  · intro hid
    simp [hid]

/-- C9 witness: updating connection 1 of the one-row database succeeds and
the updated row keeps its id and `created_at`, stores the fresh ciphertext
and carries `updated_at = now()`. -/
theorem update_user_connection_token_spec_witness :
    ∃ st', update_user_connection_token 1 "t2" c1State = .ok st' ∧
      st'.connections.length = c1State.connections.length := by
  obtain ⟨st', h1, h2, -⟩ :=
    update_user_connection_token_spec c1State 1 "t2"
      { id := 1, user_id := 1, broker_type := "tinkoff",
        encrypted_token := { secret := "tok-1", key := "k0" },
        is_active := true, created_at := 0, last_check_at := none,
        metadata := sampleMeta }
      (by decide)
  exact ⟨st', h1, h2⟩

/-! ### C3 — due-set selection and claiming -/

/-- A due connection: active, never checked. -/
def c3Conn : Connection :=
  { id := 7, user_id := 1, broker_type := "tinkoff",
    encrypted_token := { secret := "t", key := "k0" },
    is_active := true, created_at := 0, last_check_at := none,
    metadata := sampleMeta }

/-- A database holding the single due connection at time 1000. -/
def c3State : DbState :=
  { users := [1], connections := [c3Conn], encryption_key := "k0",
    now := 1000, nextId := 8 }

/-- C3 counterexample: the due-set selection does not mark selected
connections.  At the concrete state, a first tick's
`get_active_connections()` call selects `c3Conn` and leaves the database
state unchanged — no `last_check_at` update at claim time — so an
overlapping second tick selecting from the post-call state obtains `c3Conn`
again while its `last_check_at` is still `NULL`: the connection is selected
for validation twice with no intervening `last_check_at` update. -/
theorem get_active_connections_no_claim :
    (get_active_connections_call c3State).1 = [c3Conn] ∧
    (get_active_connections_call c3State).2 = c3State ∧
    c3Conn ∈ (get_active_connections_call
      ((get_active_connections_call c3State).2)).1 ∧
    c3Conn.last_check_at = none := by
  decide

/-- C3 amended: `get_active_connections` is a read-only selection — the call
returns exactly the active connections whose `last_check_at` is `NULL` or
older than five minutes and leaves the database state (in particular every
`last_check_at`) unchanged; claiming is not performed at selection time. -/
theorem get_active_connections_read_only (st : DbState) :
    (get_active_connections_call st).2 = st ∧
    ∀ c, c ∈ get_active_connections st ↔
      (c ∈ st.connections ∧ c.is_active = true ∧
        (c.last_check_at = none ∨
          ∃ t, c.last_check_at = some t ∧ t + 300 < st.now)) := by
  refine ⟨rfl, fun c => ?_⟩
  simp only [get_active_connections, get_active_connections_call,
    List.mem_filter]
  apply and_congr_right
  intro _
  simp only [connection_due, Bool.and_eq_true]
  cases h : c.last_check_at with
  | none => simp [h]
  | some t => simp [h]

/-- C3 amended witness: at the concrete state the call leaves the state
unchanged and selects the due connection. -/
theorem get_active_connections_read_only_witness :
    (get_active_connections_call c3State).2 = c3State ∧
    c3Conn ∈ get_active_connections c3State := by
  have h := get_active_connections_read_only c3State
  exact ⟨h.1, (h.2 c3Conn).2 ⟨by decide, by decide, Or.inl rfl⟩⟩

/-! ### C7 — the client-facing transport and unknown request types -/

/-- C7: the type-guard `!(type in mockResponses)` uses the JavaScript `in`
operator, which also accepts property names inherited from
`Object.prototype`.  The request tag `toString` — missing from the
documented tags portfolio, analysis, chat — is therefore not rejected: the
handler returns HTTP 200 with an empty body (the inherited function is
selected and `JSON.stringify` of it is `undefined`) instead of the
documented status-400 Invalid-request-type envelope, contradicting the
README's closed request union, the `Record` typing of `mockResponses` in
`types.ts`, and the test's expectation for non-member tags.  An ordinary
unknown tag such as `invalid` (the repository's own test input) and a
missing tag are rejected as documented. -/
theorem handler_prototype_key_divergence :
    handler 17 (some "toString") = { status := 200, body := none } ∧
    handler 17 (some "toString") ≠
      { status := 400
        body := some
          { success := false, error := some "Invalid request type",
            data := none } } ∧
    handler 17 (some "invalid") =
      { status := 400
        body := some
          { success := false, error := some "Invalid request type",
            data := none } } ∧
    handler 17 none =
      { status := 400
        body := some
          { success := false, error := some "Invalid request type",
            data := none } } := by
  decide

/-! ### C6 — portfolio delta monitor threshold and hysteresis -/

/-- C6: with the configured 5% threshold, the snapshot series
100000 → 106000 → 102000 emits exactly one `portfolio_change` notification:
the 6% move from A to B fires an alert, and the following snapshot C stays
within the hysteresis band of the last-alerted value (and below the
threshold against B), so no second notification is emitted. -/
theorem portfolio_monitor_hysteresis_example :
    monitorRun changeThreshold { lastAlertRef := none }
      [100000, 106000, 102000] = [true, false] := by
  have hp : (5 / 100 : ℚ) ≤ |((106000 : ℚ) - 100000) / 100000| := by
    rw [show ((106000 : ℚ) - 100000) / 100000 = 3 / 50 by norm_num,
      abs_of_nonneg (by norm_num : (0 : ℚ) ≤ 3 / 50)]
    norm_num
  have hn : ¬ ((5 / 100 : ℚ) ≤ |((102000 : ℚ) - 106000) / 106000|) := by
    rw [show ((102000 : ℚ) - 106000) / 106000 = -(2 / 53) by norm_num, abs_neg,
      abs_of_nonneg (by norm_num : (0 : ℚ) ≤ 2 / 53)]
    norm_num
  have h1 : shouldAlert changeThreshold { lastAlertRef := none }
      100000 106000 = true := by
    simp [shouldAlert, pct_change, changeThreshold, hp]
  have h2 : shouldAlert changeThreshold { lastAlertRef := some 106000 }
      106000 102000 = false := by
    simp [shouldAlert, pct_change, changeThreshold, hn]
  simp [monitorRun, monitorStep, h1, h2]

/-! ### C5, C8 — the cached unread counter and mark-read -/

/-- Setting the matching entries of a list to `read` removes exactly the
matching unread entries from the unread count. -/
theorem countUnread_setRead_add (i : String) (l : List Notif) :
    countUnread (l.map (fun n =>
        if n.id == i then { n with status := "read" } else n)) +
      (l.filter (fun n => n.id == i && n.status == "unread")).length =
      countUnread l := by
  induction l with
  | nil => rfl
  | cons a l ih =>
      by_cases ha : a.id = i
      · by_cases hs : a.status = "unread"
        · simp only [countUnread] at ih ⊢
          simp [List.filter_cons, ha, hs] at ih ⊢
          omega
        · simp only [countUnread] at ih ⊢
          simp [List.filter_cons, ha, hs] at ih ⊢
          omega
      · by_cases hs : a.status = "unread"
        · simp only [countUnread] at ih ⊢
          simp [List.filter_cons, ha, hs] at ih ⊢
          omega
        · simp only [countUnread] at ih ⊢
          simp [List.filter_cons, ha, hs] at ih ⊢
          omega

/-- After `markAllAsRead`'s map, no entry is unread. -/
theorem countUnread_markAll (l : List Notif) :
    countUnread (l.map (fun n => { n with status := "read" })) = 0 := by
  induction l with
  | nil => rfl
  | cons a l ih =>
      simp only [countUnread, List.map_cons, List.filter_cons] at ih ⊢
      simp [ih]

/-- One well-formed event preserves the counter invariant. -/
theorem notifStep_invariant (st : NotifState) (e : NotifEvent)
    (hinv : notifInvariant st) (hok : okEvent st e) :
    notifInvariant (notifStep st e) := by
  cases e with
  | insert n =>
      simp only [okEvent] at hok
      simp only [notifInvariant, countUnread] at hinv ⊢
      simp only [notifStep, onInsert]
      simp [List.filter_cons, hok]
      omega
  | markRead i =>
      have h := countUnread_setRead_add i st.notifications
      simp only [okEvent] at hok
      simp only [notifInvariant] at hinv ⊢
      simp only [notifStep, markAsRead]
      omega
  | markAll =>
      simp only [notifStep, markAllAsRead, notifInvariant]
      simp [countUnread_markAll]

/-- C5 amended: the cached counter invariant
`unreadCount = count(status = unread)` over the loaded list holds after the
initial load and is preserved by every run of delivered unread-insert
events, `markAllAsRead`, and `markAsRead` calls each targeting an id with
exactly one currently-unread entry; it is not preserved by a `markAsRead`
on an already-read notification (see the counterexample). -/
theorem useNotifications_unread_invariant :
    (∀ rows, notifInvariant (loadNotifications rows)) ∧
    (∀ evs st, notifInvariant st → okRun st evs →
      notifInvariant (notifRun st evs)) := by
  constructor
  · intro rows
    rfl
  · intro evs
    induction evs with
    | nil =>
        intro st h _
        exact h
    | cons e es ih =>
        intro st hinv hok
        exact ih (notifStep st e) (notifStep_invariant st e hinv hok.1) hok.2

/-- An unread notification used by the concrete scenarios. -/
def c5Notif : Notif :=
  { id := "n1", status := "unread", type := "portfolio_change",
    created_at := 0 }

/-- C5 counterexample: after loading one unread notification and calling
`markAsRead` twice on it, the cached counter is -1 while zero notifications
are unread — the invariant `unread_count == count(status = unread)` fails at
this reachable state. -/
theorem unread_count_diverges :
    ¬ notifInvariant
      (markAsRead "n1" (markAsRead "n1" (loadNotifications [c5Notif]))) := by
  simp only [notifInvariant]
  decide

/-- C5 witness: the invariant holds along a concrete well-formed run — an
unread insert delivery, a mark-read of the one unread `n1`, then
mark-all-read. -/
theorem useNotifications_unread_invariant_witness :
    notifInvariant (notifRun (loadNotifications [c5Notif])
      [.insert { id := "n2", status := "unread",
                 type := "token_invalid", created_at := 1 },
        .markRead "n1", .markAll]) := by
  have h := useNotifications_unread_invariant
  apply h.2 _ (loadNotifications [c5Notif]) (h.1 [c5Notif])
  refine ⟨rfl, ?_, trivial, trivial⟩
  simp only [okEvent]
  decide

/-- C8 counterexample: a second `markAsRead` on the same id is not a no-op —
the client state after two calls differs from the state after one (the
cached unread counter is decremented again, to -1). -/
theorem markAsRead_not_idempotent :
    markAsRead "n1" (markAsRead "n1" (loadNotifications [c5Notif])) ≠
      markAsRead "n1" (loadNotifications [c5Notif]) := by
  decide

/-- C8 amended: two consecutive `markAsRead` calls on the same id leave the
notification list fixed with the matching entry's status `read`, and neither
call raises an error (the function is total in this model); but the second
call is not a no-op: it decrements the cached unread counter once more. -/
theorem markAsRead_twice (st : NotifState) (i : String) :
    (markAsRead i (markAsRead i st)).notifications =
      (markAsRead i st).notifications ∧
    (∀ n, n ∈ (markAsRead i (markAsRead i st)).notifications →
      n.id = i → n.status = "read") ∧
    (markAsRead i (markAsRead i st)).unreadCount =
      (markAsRead i st).unreadCount - 1 := by
  refine ⟨?_, ?_, rfl⟩
  · simp only [markAsRead, List.map_map]
    apply List.map_congr_left
    intro n _
    by_cases h : n.id = i
    · simp [h]
    · simp [h]
  · intro n hn hid
    simp only [markAsRead, List.mem_map] at hn
    obtain ⟨b, ⟨c, hc, rfl⟩, rfl⟩ := hn
    by_cases h : c.id = i
    · simp [h]
    · simp [h] at hid

/-- C8 amended witness: the two-call behavior at the concrete one-entry
state. -/
theorem markAsRead_twice_witness :
    (markAsRead "n1" (markAsRead "n1"
        (loadNotifications [c5Notif]))).notifications =
      (markAsRead "n1" (loadNotifications [c5Notif])).notifications ∧
    (markAsRead "n1" (markAsRead "n1"
        (loadNotifications [c5Notif]))).unreadCount =
      (markAsRead "n1" (loadNotifications [c5Notif])).unreadCount - 1 := by
  have h := markAsRead_twice (loadNotifications [c5Notif]) "n1"
  exact ⟨h.1, h.2.2⟩

end FinancePortfolioAgent
